import Mathlib

/-!
# Shallow embedding of the Shadow Cube Generator geometry core

This file embeds the geometry-generation core of `cube_gen.py`
(`create_stl`, `generate_openscad_file` with its inner helpers `pocket`,
`through_hole`, `cube_side`) and the parameter validation of
`PreferencesDialog.save_preferences` into Lean, and proves the claims of
the specification against that embedding.

Modelling conventions:
* Python floats are modelled as exact rationals (`ℚ`); `pocket_depth`
  (a `tk.IntVar` in the code) is also carried as a rational, since the
  code only ever multiplies it into rational arithmetic.
* A 3D point is a triple `(x, y, z) : ℚ × ℚ × ℚ`.
* The stringly-typed `cell_type` values `"border"`, `"black"`, `"white"`
  of `create_stl` become the closed inductive `CellKind`.
* The per-view grid `self.grid_cells[view]` becomes a function
  `Nat → Nat → Bool` together with the grid size `N = self.grid_size`.
* The vertex/face buffers `vertices`, `faces` of `create_stl` become
  lists, built by the same row-major fold with the same
  `start_idx = len(vertices)` offset bookkeeping.
-/

namespace ShadowCube

/-- A 3D point `(x, y, z)` with exact rational coordinates. -/
abbrev Point : Type := ℚ × ℚ × ℚ

/-- A triangular face: three indices into a vertex buffer
(`faces` entries of `create_stl`). -/
abbrev Face : Type := Nat × Nat × Nat

/-- The three values of the string variable `cell_type` in `create_stl`:
`"border"`, `"black"` (grid boolean true) and `"white"` (grid boolean false). -/
inductive CellKind : Type
  | border
  | black
  | white
deriving DecidableEq, Repr

/-- Cell classification, from `create_stl` lines 657-658:
`cell_type = "black" if self.grid_cells[view][row][col] else "white"` and then
`cell_type = "border" if (row == 0 or col == 0 or row == self.grid_size - 1
or col == self.grid_size - 1) else cell_type`.
A pure function of `(N, row, col, value)`; the grid is never written. -/
def classify (N row col : Nat) (value : Bool) : CellKind :=
  if row = 0 ∨ col = 0 ∨ row = N - 1 ∨ col = N - 1 then .border
  else if value then .black else .white

/-- The 24 vertices appended for one cell by `create_stl` (lines 672-709),
in the order the Python list literal appends them.  `N` is `grid_size`,
`cell_size`/`border_thickness`/`pocket_depth` come from the preferences;
`extrusion_height = grid_size * cell_size`. -/
def cellVertices (N : Nat) (cell_size border_thickness pocket_depth : ℚ)
    (row col : Nat) : List Point :=
  let extrusion_height : ℚ := N * cell_size
  let x_start_outer : ℚ := col * cell_size
  let y_start_outer : ℚ := row * cell_size
  let x_end_outer : ℚ := x_start_outer + cell_size
  let y_end_outer : ℚ := y_start_outer + cell_size
  let x_start_inner := x_start_outer + border_thickness
  let y_start_inner := y_start_outer + border_thickness
  let x_end_inner := x_end_outer - border_thickness
  let y_end_inner := y_end_outer - border_thickness
  let z_bottom_pocket := cell_size * pocket_depth - border_thickness
  let z_top_pocket := extrusion_height - cell_size * pocket_depth + border_thickness
  [ (x_start_outer, y_start_outer, 0),                  -- 0
    (x_end_outer, y_start_outer, 0),                    -- 1
    (x_end_outer, y_end_outer, 0),                      -- 2
    (x_start_outer, y_end_outer, 0),                    -- 3
    (x_start_outer, y_start_outer, extrusion_height),   -- 4
    (x_end_outer, y_start_outer, extrusion_height),     -- 5
    (x_end_outer, y_end_outer, extrusion_height),       -- 6
    (x_start_outer, y_end_outer, extrusion_height),     -- 7
    (x_start_inner, y_start_inner, 0),                  -- 8
    (x_end_inner, y_start_inner, 0),                    -- 9
    (x_end_inner, y_end_inner, 0),                      -- 10
    (x_start_inner, y_end_inner, 0),                    -- 11
    (x_start_inner, y_start_inner, extrusion_height),   -- 12
    (x_end_inner, y_start_inner, extrusion_height),     -- 13
    (x_end_inner, y_end_inner, extrusion_height),       -- 14
    (x_start_inner, y_end_inner, extrusion_height),     -- 15
    (x_start_inner, y_start_inner, z_bottom_pocket),    -- 16
    (x_end_inner, y_start_inner, z_bottom_pocket),      -- 17
    (x_end_inner, y_end_inner, z_bottom_pocket),        -- 18
    (x_start_inner, y_end_inner, z_bottom_pocket),      -- 19
    (x_start_inner, y_start_inner, z_top_pocket),       -- 20
    (x_end_inner, y_start_inner, z_top_pocket),         -- 21
    (x_end_inner, y_end_inner, z_top_pocket),           -- 22
    (x_start_inner, y_end_inner, z_top_pocket) ]        -- 23

/-- Faces emitted for a `"border"` cell (lines 712-721): two bottom-cap and
two top-cap triangles over the outer footprint. -/
def borderFaces : List Face :=
  [(0, 1, 2), (0, 2, 3), (4, 5, 6), (4, 6, 7)]

/-- Outer-shell faces emitted for both `"black"` and `"white"` cells
(lines 722-744): the bottom and top annulus between the outer and inner
rectangles. -/
def shellFaces : List Face :=
  [(0, 1, 9), (0, 9, 8), (1, 2, 10), (1, 10, 9),
   (2, 3, 11), (2, 11, 10), (3, 0, 8), (3, 8, 11),
   (4, 5, 13), (4, 13, 12), (5, 6, 14), (5, 14, 13),
   (6, 7, 15), (6, 15, 14), (7, 4, 12), (7, 12, 15)]

/-- Global-envelope wall for `row == 0` (lines 748-754). -/
def northFace : List Face := [(0, 1, 5), (0, 5, 4)]

/-- Global-envelope wall for `row == grid_size - 1` (lines 756-762). -/
def southFace : List Face := [(2, 3, 7), (2, 7, 6)]

/-- Global-envelope wall for `col == 0` (lines 764-770). -/
def westFace : List Face := [(3, 0, 4), (3, 4, 7)]

/-- Global-envelope wall for `col == grid_size - 1` (lines 772-778). -/
def eastFace : List Face := [(1, 2, 6), (1, 6, 5)]

/-- Faces of the bottom blind pocket of a `"white"` cell (lines 783-795):
four side walls (two triangles each) from the inner bottom rim (8-11) up to
the pocket-floor rim (16-19), plus the two pocket-floor cap triangles. -/
def bottomPocketFaces : List Face :=
  [(8, 17, 9), (8, 16, 17), (9, 18, 10), (9, 17, 18),
   (10, 19, 11), (10, 18, 19), (11, 16, 8), (11, 19, 16),
   (16, 17, 18), (16, 18, 19)]

/-- Faces of the top blind pocket of a `"white"` cell (lines 797-809):
four side walls from the pocket-ceiling rim (20-23) up to the inner top rim
(12-15), plus the two pocket-ceiling cap triangles. -/
def topPocketFaces : List Face :=
  [(20, 13, 21), (20, 12, 13), (21, 14, 22), (21, 13, 14),
   (22, 15, 23), (22, 14, 15), (23, 12, 20), (23, 15, 12),
   (20, 21, 22), (20, 22, 23)]

/-- All pocket faces emitted for a `"white"` cell (lines 781-810); the single
Python `faces.extend([...])` literal is split here at the boundary between the
bottom-pocket block and the top-pocket block, preserving order. -/
def whiteFaces : List Face := bottomPocketFaces ++ topPocketFaces

/-- Inner-column wall faces emitted for a `"black"` cell (lines 812-824):
four full-height walls connecting the inner bottom rim (8-11) to the inner
top rim (12-15), with no cap over the inner rectangle at either end. -/
def blackFaces : List Face :=
  [(8, 13, 9), (8, 12, 13), (9, 14, 10), (9, 13, 14),
   (10, 15, 11), (10, 14, 15), (11, 12, 8), (11, 15, 12)]

/-- The local faces (indices into the 24 local vertices) emitted for one cell
by `create_stl`, in the order the code appends them: caps/shell first, then
the four global-envelope conditionals, then the pocket or inner-column
block. -/
def cellFaces (N row col : Nat) (k : CellKind) : List Face :=
  (if k = .border then borderFaces else shellFaces)
    ++ (if row = 0 then northFace else [])
    ++ (if row = N - 1 then southFace else [])
    ++ (if col = 0 then westFace else [])
    ++ (if col = N - 1 then eastFace else [])
    ++ (match k with
        | .white => whiteFaces
        | .black => blackFaces
        | .border => [])

/-- C3: a cell is classified `border` exactly when it lies on the outer ring
`row = 0 ∨ col = 0 ∨ row = N-1 ∨ col = N-1`; every other cell is `black`
(spec: `Filled`) exactly when its boolean is true and `white` (spec:
`Recessed`) exactly when it is false.  `classify` is a pure function of
`(row, col, N, value)` and takes no grid at all, so it cannot mutate one. -/
theorem classify_rule (N row col : Nat) (v : Bool) :
    (classify N row col v = .border ↔
      (row = 0 ∨ col = 0 ∨ row = N - 1 ∨ col = N - 1)) ∧
    (classify N row col v = .black ↔
      (¬(row = 0 ∨ col = 0 ∨ row = N - 1 ∨ col = N - 1) ∧ v = true)) ∧
    (classify N row col v = .white ↔
      (¬(row = 0 ∨ col = 0 ∨ row = N - 1 ∨ col = N - 1) ∧ v = false)) := by
  unfold classify
  by_cases h : row = 0 ∨ col = 0 ∨ row = N - 1 ∨ col = N - 1 <;>
    cases v <;> simp [h]

/-- The faces of a `"border"` cell, with the kind-dependent pieces of
`cellFaces` reduced: the caps plus the four conditional envelope walls. -/
lemma cellFaces_border (N row col : Nat) :
    cellFaces N row col .border =
      borderFaces ++ (if row = 0 then northFace else [])
        ++ (if row = N - 1 then southFace else [])
        ++ (if col = 0 then westFace else [])
        ++ (if col = N - 1 then eastFace else []) := by
  simp [cellFaces]

/-- Every face over the outer-shell vertex range satisfies the claimed index
bound; used to bound border-cell faces. -/
lemma outer_faces_lt_8 :
    ∀ g ∈ borderFaces ++ northFace ++ southFace ++ westFace ++ eastFace,
      g.1 < 8 ∧ g.2.1 < 8 ∧ g.2.2 < 8 := by decide

/-- C4: a border-ring cell (`row` or `col` in `{0, N-1}`), whatever its
boolean value, emits zero pocket or hole faces: its emitted faces are exactly
the two bottom-cap and two top-cap triangles over the full outer footprint
plus the outward global-envelope walls for each boundary side it lies on, and
every emitted face references only the 8 outer-shell vertices (indices < 8),
which are the corners of the cell's full outer prism. -/
theorem border_cell_geometry (N row col : Nat) (v : Bool) (cs bt pd : ℚ)
    (h : row = 0 ∨ col = 0 ∨ row = N - 1 ∨ col = N - 1) :
    cellFaces N row col (classify N row col v) =
      borderFaces ++ (if row = 0 then northFace else [])
        ++ (if row = N - 1 then southFace else [])
        ++ (if col = 0 then westFace else [])
        ++ (if col = N - 1 then eastFace else []) ∧
    (∀ f ∈ cellFaces N row col (classify N row col v),
      f.1 < 8 ∧ f.2.1 < 8 ∧ f.2.2 < 8) ∧
    (cellVertices N cs bt pd row col).take 8 =
      [(col * cs, row * cs, 0), (col * cs + cs, row * cs, 0),
       (col * cs + cs, row * cs + cs, 0), (col * cs, row * cs + cs, 0),
       (col * cs, row * cs, N * cs), (col * cs + cs, row * cs, N * cs),
       (col * cs + cs, row * cs + cs, N * cs),
       (col * cs, row * cs + cs, N * cs)] := by
  have hk : classify N row col v = .border := by
    unfold classify; rw [if_pos h]
  refine ⟨by rw [hk, cellFaces_border], ?_, rfl⟩
  intro f hf
  rw [hk, cellFaces_border] at hf
  apply outer_faces_lt_8
  simp only [List.mem_append, List.mem_ite_nil_right] at hf ⊢
  rcases hf with (((hb | ⟨_, hb⟩) | ⟨_, hb⟩) | ⟨_, hb⟩) | ⟨_, hb⟩ <;> tauto

/-- Closed instance of `border_cell_geometry`: grid size 2, cell `(0, 1)`
with boolean value true, `cellSize = 3`, `borderThickness = 2/5`,
`pocketDepth = 2`. -/
theorem border_cell_geometry_witness :
    ((0 : Nat) = 0 ∨ (1 : Nat) = 0 ∨ (0 : Nat) = 2 - 1 ∨ (1 : Nat) = 2 - 1) ∧
    (cellFaces 2 0 1 (classify 2 0 1 true) =
      borderFaces ++ (if (0 : Nat) = 0 then northFace else [])
        ++ (if (0 : Nat) = 2 - 1 then southFace else [])
        ++ (if (1 : Nat) = 0 then westFace else [])
        ++ (if (1 : Nat) = 2 - 1 then eastFace else []) ∧
    (∀ f ∈ cellFaces 2 0 1 (classify 2 0 1 true),
      f.1 < 8 ∧ f.2.1 < 8 ∧ f.2.2 < 8) ∧
    (cellVertices 2 3 (2/5) 2 0 1).take 8 =
      [((1 : ℚ) * 3, (0 : ℚ) * 3, 0), ((1 : ℚ) * 3 + 3, (0 : ℚ) * 3, 0),
       ((1 : ℚ) * 3 + 3, (0 : ℚ) * 3 + 3, 0), ((1 : ℚ) * 3, (0 : ℚ) * 3 + 3, 0),
       ((1 : ℚ) * 3, (0 : ℚ) * 3, (2 : ℚ) * 3), ((1 : ℚ) * 3 + 3, (0 : ℚ) * 3, (2 : ℚ) * 3),
       ((1 : ℚ) * 3 + 3, (0 : ℚ) * 3 + 3, (2 : ℚ) * 3),
       ((1 : ℚ) * 3, (0 : ℚ) * 3 + 3, (2 : ℚ) * 3)]) :=
  ⟨Or.inl rfl, border_cell_geometry 2 0 1 true 3 (2/5) 2 (Or.inl rfl)⟩

/-- C5: a `"white"` (Recessed) cell carves exactly two independent blind
pockets: its faces are the shell caps followed by the bottom-pocket block and
the top-pocket block (no envelope walls, since the cell is interior); the
bottom pocket touches only the inner-bottom rim (8-11) and the pocket-floor
rim (16-19), the top pocket only the inner-top rim (12-15) and the
pocket-ceiling rim (20-23); the four floor vertices all lie at
`z = pocketDepth*cellSize - borderThickness`, the four ceiling vertices at
`z = H - pocketDepth*cellSize + borderThickness` with `H = N*cellSize`; and
under non-degenerate parameters the floor lies strictly below the ceiling,
leaving solid material between the two pockets. -/
theorem recessed_cell_geometry (N row col : Nat) (cs bt pd : ℚ)
    (h : ¬(row = 0 ∨ col = 0 ∨ row = N - 1 ∨ col = N - 1))
    (hbt : 0 ≤ bt) (hnd : 2 * (cs * pd) < N * cs) :
    cellFaces N row col (classify N row col false) =
      shellFaces ++ bottomPocketFaces ++ topPocketFaces ∧
    bottomPocketFaces.length = 10 ∧ topPocketFaces.length = 10 ∧
    (∀ f ∈ bottomPocketFaces, ∀ i ∈ [f.1, f.2.1, f.2.2],
      8 ≤ i ∧ i ≤ 11 ∨ 16 ≤ i ∧ i ≤ 19) ∧
    (∀ f ∈ topPocketFaces, ∀ i ∈ [f.1, f.2.1, f.2.2],
      12 ≤ i ∧ i ≤ 15 ∨ 20 ≤ i ∧ i ≤ 23) ∧
    (∀ i, 16 ≤ i → i ≤ 19 →
      ((cellVertices N cs bt pd row col).getD i ((0 : ℚ), (0 : ℚ), (0 : ℚ))).2.2 =
        cs * pd - bt) ∧
    (∀ i, 20 ≤ i → i ≤ 23 →
      ((cellVertices N cs bt pd row col).getD i ((0 : ℚ), (0 : ℚ), (0 : ℚ))).2.2 =
        N * cs - cs * pd + bt) ∧
    cs * pd - bt < N * cs - cs * pd + bt := by
  push_neg at h
  obtain ⟨h0, h1, h2, h3⟩ := h
  have hk : classify N row col false = .white := by
    unfold classify
    rw [if_neg (by tauto), if_neg (by simp)]
  refine ⟨?_, rfl, rfl, by decide, by decide, ?_, ?_, by linarith⟩
  · rw [hk]
    simp [cellFaces, whiteFaces, h0, h1, h2, h3]
  · intro i hi1 hi2
    interval_cases i <;> rfl
  · intro i hi1 hi2
    interval_cases i <;> rfl

/-- Closed instance of `recessed_cell_geometry`: grid size 3, interior cell
`(1, 1)`, `cellSize = 3`, `borderThickness = 2/5`, `pocketDepth = 1`. -/
theorem recessed_cell_geometry_witness :
    ¬((1 : Nat) = 0 ∨ (1 : Nat) = 0 ∨ (1 : Nat) = 3 - 1 ∨ (1 : Nat) = 3 - 1) ∧
    (0 : ℚ) ≤ 2/5 ∧ 2 * ((3 : ℚ) * 1) < (3 : ℚ) * 3 ∧
    (cellFaces 3 1 1 (classify 3 1 1 false) =
      shellFaces ++ bottomPocketFaces ++ topPocketFaces ∧
    bottomPocketFaces.length = 10 ∧ topPocketFaces.length = 10 ∧
    (∀ f ∈ bottomPocketFaces, ∀ i ∈ [f.1, f.2.1, f.2.2],
      8 ≤ i ∧ i ≤ 11 ∨ 16 ≤ i ∧ i ≤ 19) ∧
    (∀ f ∈ topPocketFaces, ∀ i ∈ [f.1, f.2.1, f.2.2],
      12 ≤ i ∧ i ≤ 15 ∨ 20 ≤ i ∧ i ≤ 23) ∧
    (∀ i, 16 ≤ i → i ≤ 19 →
      ((cellVertices 3 3 (2/5) 1 1 1).getD i ((0 : ℚ), (0 : ℚ), (0 : ℚ))).2.2 =
        (3 : ℚ) * 1 - 2/5) ∧
    (∀ i, 20 ≤ i → i ≤ 23 →
      ((cellVertices 3 3 (2/5) 1 1 1).getD i ((0 : ℚ), (0 : ℚ), (0 : ℚ))).2.2 =
        (3 : ℚ) * 3 - 3 * 1 + 2/5) ∧
    (3 : ℚ) * 1 - 2/5 < (3 : ℚ) * 3 - 3 * 1 + 2/5) :=
  ⟨by decide, by norm_num, by norm_num,
    recessed_cell_geometry 3 1 1 3 (2/5) 1 (by decide) (by norm_num) (by norm_num)⟩

/-! ## CSG Script Builder (`generate_openscad_file`, lines 894-956) -/

/-- An axis-aligned rectangular subtractive primitive:
`translate([x, y, z])(cube([dx, dy, dz]))` in the generated OpenSCAD script. -/
structure Prism : Type where
  x : ℚ
  y : ℚ
  z : ℚ
  dx : ℚ
  dy : ℚ
  dz : ℚ
deriving DecidableEq, Repr

/-- The inner helper `pocket(row, col)` of `generate_openscad_file`
(lines 900-919): two inset prisms of height `cell_size*pocket_depth`, the
first starting at `z = 0`, the second starting at
`z = cell_size*number_of_cells - cell_size*pocket_depth`. -/
def pocket (cell_size border_thickness pocket_depth : ℚ) (number_of_cells : Nat)
    (row col : Nat) : List Prism :=
  [⟨cell_size * row + border_thickness, cell_size * col + border_thickness, 0,
    cell_size - 2 * border_thickness, cell_size - 2 * border_thickness,
    cell_size * pocket_depth⟩,
   ⟨cell_size * row + border_thickness, cell_size * col + border_thickness,
    cell_size * number_of_cells - cell_size * pocket_depth,
    cell_size - 2 * border_thickness, cell_size - 2 * border_thickness,
    cell_size * pocket_depth⟩]

/-- The inner helper `through_hole(row, col)` of `generate_openscad_file`
(lines 921-928): one inset prism starting at `z = 0` of height
`cell_size*number_of_cells`. -/
def through_hole (cell_size border_thickness : ℚ) (number_of_cells : Nat)
    (row col : Nat) : Prism :=
  ⟨cell_size * row + border_thickness, cell_size * col + border_thickness, 0,
   cell_size - 2 * border_thickness, cell_size - 2 * border_thickness,
   cell_size * number_of_cells⟩

/-- The inner helper `cube_side(view)` of `generate_openscad_file`
(lines 930-938): for `i, j` in `range(1, number_of_cells-1)`, a
`through_hole` when the grid boolean is true and a `pocket` pair when it is
false, unioned.  The union is modelled as the list of its subtractive
primitives; `List.range' 1 (N-2)` is Python's `range(1, N-1)`. -/
def cube_side (number_of_cells : Nat) (cell_size border_thickness pocket_depth : ℚ)
    (grid : Nat → Nat → Bool) : List Prism :=
  (List.range' 1 (number_of_cells - 2)).flatMap fun i =>
    (List.range' 1 (number_of_cells - 2)).flatMap fun j =>
      if grid i j then [through_hole cell_size border_thickness number_of_cells i j]
      else pocket cell_size border_thickness pocket_depth number_of_cells i j

/-- C6: the CSG Script Builder emits a subtractive primitive exactly for the
cells with `1 ≤ row, col ≤ N-2` (so the border ring contributes none): a
single prism spanning the inset footprint over the entire height
`N*cellSize` when the cell's boolean is true, and a pair of inset prisms of
height `pocketDepth*cellSize`, one starting at `z = 0` and one ending at
`z = N*cellSize`, when it is false. -/
theorem cube_side_emission (N : Nat) (cs bt pd : ℚ) (grid : Nat → Nat → Bool)
    (p : Prism) (i j : Nat) :
    (p ∈ cube_side N cs bt pd grid ↔
      ∃ r c, 1 ≤ r ∧ r ≤ N - 2 ∧ 1 ≤ c ∧ c ≤ N - 2 ∧
        p ∈ (if grid r c then [through_hole cs bt N r c]
             else pocket cs bt pd N r c)) ∧
    ((through_hole cs bt N i j).x = cs * i + bt ∧
      (through_hole cs bt N i j).y = cs * j + bt ∧
      (through_hole cs bt N i j).dx = cs - 2 * bt ∧
      (through_hole cs bt N i j).dy = cs - 2 * bt ∧
      (through_hole cs bt N i j).z = 0 ∧
      (through_hole cs bt N i j).z + (through_hole cs bt N i j).dz = cs * N) ∧
    (∃ pLow pHigh, pocket cs bt pd N i j = [pLow, pHigh] ∧
      pLow.x = cs * i + bt ∧ pLow.y = cs * j + bt ∧
      pLow.dx = cs - 2 * bt ∧ pLow.dy = cs - 2 * bt ∧
      pLow.z = 0 ∧ pLow.dz = cs * pd ∧
      pHigh.x = cs * i + bt ∧ pHigh.y = cs * j + bt ∧
      pHigh.dx = cs - 2 * bt ∧ pHigh.dy = cs - 2 * bt ∧
      pHigh.dz = cs * pd ∧ pHigh.z + pHigh.dz = cs * N) := by
  refine ⟨?_, ⟨rfl, rfl, rfl, rfl, rfl, show (0 : ℚ) + cs * N = cs * N by ring⟩,
    ⟨_, _, rfl, rfl, rfl, rfl, rfl, rfl, rfl, rfl, rfl, rfl, rfl, rfl,
      show cs * (N : ℚ) - cs * pd + cs * pd = cs * N by ring⟩⟩
  simp only [cube_side, List.mem_flatMap, List.mem_range']
  constructor
  · rintro ⟨r, ⟨a, ha, rfl⟩, c, ⟨b, hb, rfl⟩, hp⟩
    exact ⟨1 + 1 * a, 1 + 1 * b, by omega, by omega, by omega, by omega, hp⟩
  · rintro ⟨r, c, h1, h2, h3, h4, hp⟩
    exact ⟨r, ⟨r - 1, by omega, by omega⟩, c, ⟨c - 1, by omega, by omega⟩, hp⟩

/-! ## Cavity descriptors for the cross-pipeline comparison (C1)

The mesh pipeline and the CSG pipeline describe a cell's cavity in different
vocabularies (triangles vs. subtractive prisms).  The two extractors below
read the cavity kind off each pipeline's actual output for one cell.
-/

/-- A cavity kind carried by one cell of a view's solid. -/
inductive CavityKind : Type
  | noCavity
  | throughHole
  | pocketPair
deriving DecidableEq, Repr

/-- A face lying entirely on cell-interior vertices (local indices 8-23):
the outer-shell caps and envelope walls all use at least one outer vertex
(index < 8), so these are exactly the carved-cavity faces. -/
def innerFace (f : Face) : Bool :=
  decide (8 ≤ f.1) && decide (8 ≤ f.2.1) && decide (8 ≤ f.2.2)

/-- Face touches the inner-bottom rim (local vertices 8-11, at `z = 0`). -/
def touchesInnerBottomRim (f : Face) : Bool :=
  decide ((8 ≤ f.1 ∧ f.1 ≤ 11) ∨ (8 ≤ f.2.1 ∧ f.2.1 ≤ 11) ∨
    (8 ≤ f.2.2 ∧ f.2.2 ≤ 11))

/-- Face touches the inner-top rim (local vertices 12-15, at `z = H`). -/
def touchesInnerTopRim (f : Face) : Bool :=
  decide ((12 ≤ f.1 ∧ f.1 ≤ 15) ∨ (12 ≤ f.2.1 ∧ f.2.1 ≤ 15) ∨
    (12 ≤ f.2.2 ∧ f.2.2 ≤ 15))

/-- Cavity kind of a cell in the mesh pipeline, read off its emitted local
faces: no interior-only faces means no cavity; an interior wall joining the
open bottom rim to the open top rim is a full-height channel (the `"black"`
inner column walls, which have no cap over the inner rectangle at either
end); otherwise the interior faces form the two capped blind pockets. -/
def meshCavityKind (faces : List Face) : CavityKind :=
  let cav := faces.filter innerFace
  if cav = [] then .noCavity
  else if cav.any fun f => touchesInnerBottomRim f && touchesInnerTopRim f then
    .throughHole
  else .pocketPair

/-- The subtractive primitives `cube_side` emits for one cell `(i, j)`: the
loop guard `1 ≤ i, j ≤ number_of_cells - 2` of the `range(1, N-1)` loops made
explicit. -/
def csgCellPrims (N : Nat) (cs bt pd : ℚ) (grid : Nat → Nat → Bool)
    (i j : Nat) : List Prism :=
  if 1 ≤ i ∧ i < N - 1 ∧ 1 ≤ j ∧ j < N - 1 then
    (if grid i j then [through_hole cs bt N i j]
     else pocket cs bt pd N i j)
  else []

/-- Faithfulness of `csgCellPrims` to `cube_side`: the builder's output
consists exactly of the per-cell primitive lists. -/
lemma mem_cube_side_iff_cellPrims (N : Nat) (cs bt pd : ℚ)
    (grid : Nat → Nat → Bool) (p : Prism) :
    p ∈ cube_side N cs bt pd grid ↔
      ∃ i j, p ∈ csgCellPrims N cs bt pd grid i j := by
  simp only [cube_side, csgCellPrims, List.mem_flatMap, List.mem_range']
  constructor
  · rintro ⟨r, ⟨a, ha, rfl⟩, c, ⟨b, hb, rfl⟩, hp⟩
    refine ⟨1 + 1 * a, 1 + 1 * b, ?_⟩
    rw [if_pos (by omega)]
    exact hp
  · rintro ⟨r, c, hp⟩
    split at hp
    · next hg =>
      exact ⟨r, ⟨r - 1, by omega, by omega⟩, c, ⟨c - 1, by omega, by omega⟩, hp⟩
    · exact absurd hp (List.not_mem_nil p)

/-- Cavity kind of a cell in the CSG pipeline, read off its subtractive
primitives: a prism running from `z = 0` to `z = cellSize*N` is a
through-hole; any other nonempty contribution is the pocket pair. -/
def csgCavityKind (N : Nat) (cs : ℚ) (prims : List Prism) : CavityKind :=
  if prims = [] then .noCavity
  else if ∃ p ∈ prims, p.z = 0 ∧ p.z + p.dz = cs * N then .throughHole
  else .pocketPair

/-- Interior-cell faces for a `"black"` cell: shell caps plus the
inner-column walls. -/
lemma cellFaces_black (N row col : Nat) (h0 : row ≠ 0) (h1 : row ≠ N - 1)
    (h2 : col ≠ 0) (h3 : col ≠ N - 1) :
    cellFaces N row col .black = shellFaces ++ blackFaces := by
  simp [cellFaces, h0, h1, h2, h3]

/-- Interior-cell faces for a `"white"` cell: shell caps plus the two pocket
blocks. -/
lemma cellFaces_white (N row col : Nat) (h0 : row ≠ 0) (h1 : row ≠ N - 1)
    (h2 : col ≠ 0) (h3 : col ≠ N - 1) :
    cellFaces N row col .white = shellFaces ++ whiteFaces := by
  simp [cellFaces, h0, h1, h2, h3]

/-- A border cell emits no interior-only faces. -/
lemma filter_innerFace_border (N row col : Nat) :
    (cellFaces N row col .border).filter innerFace = [] := by
  rw [cellFaces_border]
  split_ifs <;> decide

/-- The `"black"` interior geometry is a full-height channel. -/
lemma meshCavityKind_black : meshCavityKind (shellFaces ++ blackFaces) = .throughHole := by
  decide

/-- The `"white"` interior geometry is the blind-pocket pair. -/
lemma meshCavityKind_white : meshCavityKind (shellFaces ++ whiteFaces) = .pocketPair := by
  decide

/-- C1: for every cell of a valid grid, under non-degenerate parameters, the
mesh pipeline's solid carries a cavity at `(row, col)` exactly when the CSG
pipeline's solid carries one at the same cell position — and the cavity kinds
agree as well: border-ring cells carry none in either pipeline, true interior
cells a full-height through-channel in both, false interior cells a blind
pocket pair in both.  (The spec's §9 worry that the mesh path treats a true
cell as a solid column is not what the code builds: the `"black"` faces leave
the inner rectangle uncapped at both ends.) -/
theorem mesh_csg_cavity_agreement (N row col : Nat) (cs bt pd : ℚ)
    (grid : Nat → Nat → Bool) (hr : row < N) (hc : col < N)
    (hcs : 0 < cs) (hpd : 0 < pd) (hpdN : pd < N) :
    (meshCavityKind (cellFaces N row col (classify N row col (grid row col)))
        ≠ .noCavity ↔
      csgCavityKind N cs (csgCellPrims N cs bt pd grid row col) ≠ .noCavity) ∧
    meshCavityKind (cellFaces N row col (classify N row col (grid row col))) =
      csgCavityKind N cs (csgCellPrims N cs bt pd grid row col) := by
  have hcpd : cs * pd < cs * N := mul_lt_mul_of_pos_left hpdN hcs
  by_cases hb : row = 0 ∨ col = 0 ∨ row = N - 1 ∨ col = N - 1
  · have hk : classify N row col (grid row col) = .border := by
      unfold classify; rw [if_pos hb]
    have hmesh : meshCavityKind (cellFaces N row col .border) = .noCavity := by
      rw [meshCavityKind, filter_innerFace_border]
      simp
    have hguard : ¬(1 ≤ row ∧ row < N - 1 ∧ 1 ≤ col ∧ col < N - 1) := by omega
    have hcsg : csgCellPrims N cs bt pd grid row col = [] := by
      simp only [csgCellPrims]
      rw [if_neg hguard]
    rw [hk, hmesh, hcsg]
    simp [csgCavityKind]
  · push_neg at hb
    obtain ⟨h0, hc0, hN, hcN⟩ := hb
    have hguard : 1 ≤ row ∧ row < N - 1 ∧ 1 ≤ col ∧ col < N - 1 := by omega
    cases hg : grid row col
    · have hk : classify N row col false = .white := by
        unfold classify
        rw [if_neg (by tauto), if_neg (by simp)]
      have hprims : csgCellPrims N cs bt pd grid row col =
          pocket cs bt pd N row col := by
        simp only [csgCellPrims, hg]
        rw [if_pos hguard]
        simp
      have hnone : pocket cs bt pd N row col ≠ [] := by simp [pocket]
      have hnoth : ¬∃ p ∈ pocket cs bt pd N row col,
          p.z = 0 ∧ p.z + p.dz = cs * N := by
        rintro ⟨p, hp, hz, hzdz⟩
        simp only [pocket, List.mem_cons, List.mem_singleton] at hp
        rcases hp with rfl | rfl | h
        · simp only at hzdz
          linarith
        · simp only at hz
          linarith
        · exact absurd h (List.not_mem_nil p)
      rw [hk, cellFaces_white N row col h0 hN hc0 hcN, meshCavityKind_white,
        hprims, csgCavityKind, if_neg hnone, if_neg hnoth]
      simp
    · have hk : classify N row col true = .black := by
        unfold classify
        rw [if_neg (by tauto)]
        simp
      have hprims : csgCellPrims N cs bt pd grid row col =
          [through_hole cs bt N row col] := by
        simp only [csgCellPrims, hg]
        rw [if_pos hguard]
        simp
      have hsome : ∃ p ∈ [through_hole cs bt N row col],
          p.z = 0 ∧ p.z + p.dz = cs * N := by
        refine ⟨through_hole cs bt N row col, List.mem_singleton_self _, rfl, ?_⟩
        show (0 : ℚ) + cs * N = cs * N
        ring
      rw [hk, cellFaces_black N row col h0 hN hc0 hcN, meshCavityKind_black,
        hprims, csgCavityKind, if_neg (by simp), if_pos hsome]
      simp

/-- The all-false grid (every interior cell `Recessed`), and a grid with one
true interior cell, used to instantiate theorems at concrete inputs. -/
def allFalseGrid : Nat → Nat → Bool := fun _ _ => false

/-- Closed instance of `mesh_csg_cavity_agreement`: grid size 3, interior
cell `(1, 1)` of the all-false grid, `cellSize = 3`,
`borderThickness = 2/5`, `pocketDepth = 1`. -/
theorem mesh_csg_cavity_agreement_witness :
    (1 : Nat) < 3 ∧ (0 : ℚ) < 3 ∧ (0 : ℚ) < 1 ∧ (1 : ℚ) < (3 : Nat) ∧
    ((meshCavityKind (cellFaces 3 1 1 (classify 3 1 1 (allFalseGrid 1 1)))
        ≠ .noCavity ↔
      csgCavityKind 3 3 (csgCellPrims 3 3 (2/5) 1 allFalseGrid 1 1) ≠ .noCavity) ∧
    meshCavityKind (cellFaces 3 1 1 (classify 3 1 1 (allFalseGrid 1 1))) =
      csgCavityKind 3 3 (csgCellPrims 3 3 (2/5) 1 allFalseGrid 1 1)) :=
  ⟨by decide, by norm_num, by norm_num, by norm_num,
    mesh_csg_cavity_agreement 3 1 1 3 (2/5) 1 allFalseGrid (by decide) (by decide)
      (by norm_num) (by norm_num) (by norm_num)⟩

/-! ## View Mesh Assembler: the vertex/face buffers of `create_stl`
(lines 650-829) -/

/-- Row-major cell order of the two nested loops
`for row in range(self.grid_size): for col in range(self.grid_size)`. -/
def gridCells (N : Nat) : List (Nat × Nat) :=
  (List.range N).flatMap fun row => (List.range N).map fun col => (row, col)

/-- One iteration of the cell loop of `create_stl`: capture
`start_idx = len(vertices)`, extend `vertices` by the cell's 24 vertices, and
extend `faces` by the cell's local faces shifted by `start_idx`. -/
def cellStep (N : Nat) (cs bt pd : ℚ) (grid : Nat → Nat → Bool)
    (acc : List Point × List Face) (rc : Nat × Nat) : List Point × List Face :=
  let start_idx := acc.1.length
  (acc.1 ++ cellVertices N cs bt pd rc.1 rc.2,
   acc.2 ++ (cellFaces N rc.1 rc.2 (classify N rc.1 rc.2 (grid rc.1 rc.2))).map
     fun f => (f.1 + start_idx, f.2.1 + start_idx, f.2.2 + start_idx))

/-- The vertex and face buffers accumulated by `create_stl` over all cells
(the state of `vertices`, `faces` just after the double loop, line 826). -/
def create_stl (N : Nat) (cs bt pd : ℚ) (grid : Nat → Nat → Bool) :
    List Point × List Face :=
  (gridCells N).foldl (cellStep N cs bt pd grid) ([], [])

/-- Each cell appends exactly 24 vertices. -/
lemma cellVertices_length (N : Nat) (cs bt pd : ℚ) (row col : Nat) :
    (cellVertices N cs bt pd row col).length = 24 := rfl

/-- Closed form of the face buffer: per-cell local faces shifted by a
running offset that advances by 24 per cell. -/
def offsetFaces (N : Nat) (grid : Nat → Nat → Bool) :
    Nat → List (Nat × Nat) → List Face
  | _, [] => []
  | n, rc :: t =>
      (cellFaces N rc.1 rc.2 (classify N rc.1 rc.2 (grid rc.1 rc.2))).map
        (fun f => (f.1 + n, f.2.1 + n, f.2.2 + n)) ++ offsetFaces N grid (n + 24) t

/-- The cell-loop fold in closed form. -/
lemma foldl_cellStep (N : Nat) (cs bt pd : ℚ) (grid : Nat → Nat → Bool)
    (l : List (Nat × Nat)) (vs : List Point) (fs : List Face) :
    l.foldl (cellStep N cs bt pd grid) (vs, fs) =
      (vs ++ l.flatMap fun rc => cellVertices N cs bt pd rc.1 rc.2,
       fs ++ offsetFaces N grid vs.length l) := by
  induction l generalizing vs fs with
  | nil => simp [offsetFaces]
  | cons rc t ih =>
    rw [List.foldl_cons]
    have hstep : cellStep N cs bt pd grid (vs, fs) rc =
        (vs ++ cellVertices N cs bt pd rc.1 rc.2,
         fs ++ (cellFaces N rc.1 rc.2 (classify N rc.1 rc.2 (grid rc.1 rc.2))).map
           fun f => (f.1 + vs.length, f.2.1 + vs.length, f.2.2 + vs.length)) := rfl
    rw [hstep, ih]
    simp [offsetFaces, List.flatMap_cons, List.length_append, cellVertices_length,
      List.append_assoc]

/-- `create_stl` in closed form. -/
lemma create_stl_eq (N : Nat) (cs bt pd : ℚ) (grid : Nat → Nat → Bool) :
    create_stl N cs bt pd grid =
      ((gridCells N).flatMap fun rc => cellVertices N cs bt pd rc.1 rc.2,
       offsetFaces N grid 0 (gridCells N)) := by
  rw [create_stl, foldl_cellStep]
  simp

/-- Length of a flatMap whose blocks all have length `m`. -/
lemma length_flatMap_const {α β : Type} (l : List α) (g : α → List β) (m : Nat)
    (h : ∀ a, (g a).length = m) : (l.flatMap g).length = m * l.length := by
  induction l with
  | nil => simp
  | cons a t ih =>
    rw [List.flatMap_cons, List.length_append, h a, ih, List.length_cons,
      Nat.mul_succ]
    omega

/-- Dropping whole blocks of a constant-block-length flatMap. -/
lemma flatMap_const_drop {α β : Type} (g : α → List β) (m : Nat)
    (h : ∀ a, (g a).length = m) :
    ∀ (l : List α) (i : Nat), i ≤ l.length →
      (l.flatMap g).drop (m * i) = (l.drop i).flatMap g := by
  intro l
  induction l with
  | nil =>
    intro i hi
    have : i = 0 := by simpa using hi
    subst this
    simp
  | cons a t ih =>
    intro i hi
    cases i with
    | zero => simp
    | succ i =>
      rw [List.flatMap_cons,
        show m * (i + 1) = (g a).length + m * i by rw [h a]; ring,
        List.drop_append, List.drop_succ_cons]
      exact ih i (by simpa using hi)

/-- There are `N*N` cells. -/
lemma gridCells_length (N : Nat) : (gridCells N).length = N * N := by
  rw [gridCells, length_flatMap_const _ _ N fun a => by simp]
  simp

/-- Position `row*N + col` of the row-major cell order is cell
`(row, col)`. -/
lemma gridCells_drop_cons (N row col : Nat) (hr : row < N) (hc : col < N) :
    ∃ t, (gridCells N).drop (row * N + col) = (row, col) :: t := by
  have hlen : ∀ a : Nat, ((List.range N).map fun c => (a, c)).length = N := by
    simp
  have e1 : ((List.range N).flatMap fun r =>
        (List.range N).map fun c => (r, c)).drop (N * row) =
      ((List.range N).drop row).flatMap fun r =>
        (List.range N).map fun c => (r, c) :=
    flatMap_const_drop _ N hlen _ row (by simp [Nat.le_of_lt hr])
  have e2 : (List.range N).drop row = row :: (List.range N).drop (row + 1) := by
    rw [List.drop_eq_getElem_cons (by simpa using hr)]
    rw [List.getElem_range]
  have e4 : (List.range N).drop col = col :: (List.range N).drop (col + 1) := by
    rw [List.drop_eq_getElem_cons (by simpa using hc)]
    rw [List.getElem_range]
  refine ⟨((List.range N).drop (col + 1)).map (fun c => (row, c)) ++
    ((List.range N).drop (row + 1)).flatMap
      (fun r => (List.range N).map fun c => (r, c)), ?_⟩
  show ((List.range N).flatMap fun r =>
      (List.range N).map fun c => (r, c)).drop (row * N + col) = _
  rw [show row * N + col = N * row + col by ring, ← List.drop_drop, e1, e2,
    List.flatMap_cons,
    List.drop_append_of_le_length (by simp [Nat.le_of_lt hc]),
    ← List.map_drop, e4, List.map_cons]
  rfl

/-- Local face indices never exceed 23, for every cell kind. -/
lemma cellFaces_lt_24 (N row col : Nat) (k : CellKind) :
    ∀ f ∈ cellFaces N row col k, f.1 < 24 ∧ f.2.1 < 24 ∧ f.2.2 < 24 := by
  cases k <;> (unfold cellFaces; split_ifs <;> decide)

/-- Border cells reference only the 8 outer-shell vertices. -/
lemma cellFaces_border_lt_8 (N row col : Nat) :
    ∀ f ∈ cellFaces N row col .border, f.1 < 8 ∧ f.2.1 < 8 ∧ f.2.2 < 8 := by
  unfold cellFaces
  split_ifs <;> first
    | decide
    | exact absurd rfl (by assumption)

/-- Every face of the closed-form face buffer is a cell-local face shifted by
that cell's block offset. -/
lemma offsetFaces_mem (N : Nat) (grid : Nat → Nat → Bool) :
    ∀ (l : List (Nat × Nat)) (n : Nat) (f : Face), f ∈ offsetFaces N grid n l →
      ∃ i rc t, l.drop i = rc :: t ∧
        ∃ f₀ ∈ cellFaces N rc.1 rc.2 (classify N rc.1 rc.2 (grid rc.1 rc.2)),
          f = (f₀.1 + (n + 24 * i), f₀.2.1 + (n + 24 * i), f₀.2.2 + (n + 24 * i)) := by
  intro l
  induction l with
  | nil =>
    intro n f hf
    exact absurd hf (List.not_mem_nil f)
  | cons rc t ih =>
    intro n f hf
    rw [offsetFaces] at hf
    rcases List.mem_append.1 hf with hl | hr
    · obtain ⟨f₀, hf₀, rfl⟩ := List.mem_map.1 hl
      exact ⟨0, rc, t, rfl, f₀, hf₀, by simp⟩
    · obtain ⟨i, rc', t', hdrop, f₀, hf₀, heq⟩ := ih (n + 24) f hr
      refine ⟨i + 1, rc', t', by simpa using hdrop, f₀, hf₀, ?_⟩
      rw [heq]
      have : n + 24 + 24 * i = n + 24 * (i + 1) := by ring
      rw [this]

/-- C9: every triangle of the assembled face buffer references three vertex
indices strictly below the length of the final vertex buffer — no dangling
indices, because each cell's local indices (at most 23) are offset by the
buffer length captured before that cell's 24 vertices were appended. -/
theorem faces_reference_valid_vertices (N : Nat) (cs bt pd : ℚ)
    (grid : Nat → Nat → Bool) :
    ∀ f ∈ (create_stl N cs bt pd grid).2,
      f.1 < (create_stl N cs bt pd grid).1.length ∧
      f.2.1 < (create_stl N cs bt pd grid).1.length ∧
      f.2.2 < (create_stl N cs bt pd grid).1.length := by
  intro f hf
  rw [create_stl_eq] at hf ⊢
  simp only at hf ⊢
  obtain ⟨i, rc, t, hdrop, f₀, hf₀, rfl⟩ := offsetFaces_mem N grid _ _ f hf
  obtain ⟨b1, b2, b3⟩ := cellFaces_lt_24 N rc.1 rc.2 _ f₀ hf₀
  have hi : i < (gridCells N).length := by
    have hlen := List.length_drop i (gridCells N)
    rw [hdrop] at hlen
    simp at hlen
    omega
  have hL : ((gridCells N).flatMap fun rc =>
      cellVertices N cs bt pd rc.1 rc.2).length = 24 * (gridCells N).length :=
    length_flatMap_const _ _ 24 fun rc => cellVertices_length N cs bt pd rc.1 rc.2
  rw [hL]
  refine ⟨?_, ?_, ?_⟩ <;> (dsimp only; omega)

/-- Closed instance of `faces_reference_valid_vertices`: grid size 1, the
first bottom-cap triangle of the single (border) cell. -/
theorem faces_reference_valid_vertices_witness :
    ((0, 1, 2) : Face) ∈ (create_stl 1 1 0 1 allFalseGrid).2 ∧
    (((0, 1, 2) : Face).1 < (create_stl 1 1 0 1 allFalseGrid).1.length ∧
      ((0, 1, 2) : Face).2.1 < (create_stl 1 1 0 1 allFalseGrid).1.length ∧
      ((0, 1, 2) : Face).2.2 < (create_stl 1 1 0 1 allFalseGrid).1.length) :=
  ⟨by decide,
    faces_reference_valid_vertices 1 1 0 1 allFalseGrid (0, 1, 2) (by decide)⟩

/-- C10: every cell appends exactly 24 vertices, so the buffer of an `N×N`
grid holds exactly `24*N*N` vertices and the cell processed at row-major
position `(row, col)` occupies global indices `24*(row*N+col)` through
`24*(row*N+col)+23`; a border cell's 16 inner and pocket vertices (block
offsets 8-23) are present in the buffer but referenced by no face of the
whole mesh. -/
theorem vertex_buffer_layout (N row col : Nat) (cs bt pd : ℚ)
    (grid : Nat → Nat → Bool) (hr : row < N) (hc : col < N) :
    (create_stl N cs bt pd grid).1.length = 24 * (N * N) ∧
    ((create_stl N cs bt pd grid).1.drop (24 * (row * N + col))).take 24 =
      cellVertices N cs bt pd row col ∧
    ((row = 0 ∨ col = 0 ∨ row = N - 1 ∨ col = N - 1) →
      ∀ f ∈ (create_stl N cs bt pd grid).2, ∀ i ∈ [f.1, f.2.1, f.2.2],
        ¬(24 * (row * N + col) + 8 ≤ i ∧ i < 24 * (row * N + col) + 24)) := by
  obtain ⟨tail, htail⟩ := gridCells_drop_cons N row col hr hc
  have hidx : row * N + col < (gridCells N).length := by
    rw [gridCells_length]
    calc row * N + col < (row + 1) * N := by
          rw [Nat.succ_mul]; omega
    _ ≤ N * N := Nat.mul_le_mul_right N hr
  have hvlen : ∀ rc : Nat × Nat,
      (cellVertices N cs bt pd rc.1 rc.2).length = 24 :=
    fun rc => cellVertices_length N cs bt pd rc.1 rc.2
  have hL : ((gridCells N).flatMap fun rc =>
      cellVertices N cs bt pd rc.1 rc.2).length = 24 * (gridCells N).length :=
    length_flatMap_const _ _ 24 hvlen
  have hD : ((gridCells N).flatMap fun rc =>
        cellVertices N cs bt pd rc.1 rc.2).drop (24 * (row * N + col)) =
      ((gridCells N).drop (row * N + col)).flatMap fun rc =>
        cellVertices N cs bt pd rc.1 rc.2 :=
    flatMap_const_drop _ 24 hvlen _ (row * N + col) (Nat.le_of_lt hidx)
  refine ⟨?_, ?_, ?_⟩
  · rw [create_stl_eq]
    simp only
    rw [hL, gridCells_length]
  · rw [create_stl_eq]
    simp only
    rw [hD, htail, List.flatMap_cons,
      List.take_left' (cellVertices_length N cs bt pd row col)]
  · intro hb f hf i hi
    rw [create_stl_eq] at hf
    simp only at hf
    obtain ⟨j, rc, t, hdrop, f₀, hf₀, rfl⟩ := offsetFaces_mem N grid _ _ f hf
    obtain ⟨b1, b2, b3⟩ := cellFaces_lt_24 N rc.1 rc.2 _ f₀ hf₀
    rintro ⟨hlo, hhi⟩
    have hj : j = row * N + col := by
      simp only [List.mem_cons, List.not_mem_nil, or_false] at hi
      rcases hi with rfl | rfl | rfl <;> omega
    subst hj
    rw [htail] at hdrop
    obtain ⟨hrc, -⟩ := List.cons.inj hdrop
    subst hrc
    have hkind : classify N row col (grid row col) = .border := by
      unfold classify
      rw [if_pos hb]
    rw [hkind] at hf₀
    obtain ⟨c1, c2, c3⟩ := cellFaces_border_lt_8 N row col f₀ hf₀
    simp only [List.mem_cons, List.not_mem_nil, or_false] at hi
    rcases hi with rfl | rfl | rfl <;> omega

/-- Closed instance of `vertex_buffer_layout`: grid size 1, cell `(0, 0)`. -/
theorem vertex_buffer_layout_witness :
    (0 : Nat) < 1 ∧
    ((create_stl 1 1 0 1 allFalseGrid).1.length = 24 * (1 * 1) ∧
    ((create_stl 1 1 0 1 allFalseGrid).1.drop (24 * (0 * 1 + 0))).take 24 =
      cellVertices 1 1 0 1 0 0 ∧
    (((0 : Nat) = 0 ∨ (0 : Nat) = 0 ∨ (0 : Nat) = 1 - 1 ∨ (0 : Nat) = 1 - 1) →
      ∀ f ∈ (create_stl 1 1 0 1 allFalseGrid).2, ∀ i ∈ [f.1, f.2.1, f.2.2],
        ¬(24 * (0 * 1 + 0) + 8 ≤ i ∧ i < 24 * (0 * 1 + 0) + 24))) :=
  ⟨Nat.zero_lt_one,
    vertex_buffer_layout 1 0 0 1 0 1 allFalseGrid Nat.zero_lt_one Nat.zero_lt_one⟩

/-! ## Per-view orientation and re-centering (`create_stl`, lines 832-854) -/

/-- The three views. -/
inductive View : Type
  | Top
  | Front
  | Side
deriving DecidableEq, Repr

/-- Rotation about the Y axis with the given cosine and sine
(`grid_mesh.rotate([0.0, 1.0, 0.0], theta)`). -/
def rotY (c s : ℚ) (p : Point) : Point :=
  (c * p.1 + s * p.2.2, p.2.1, -s * p.1 + c * p.2.2)

/-- Rotation about the X axis with the given cosine and sine
(`grid_mesh.rotate([1.0, 0.0, 0.0], theta)`). -/
def rotX (c s : ℚ) (p : Point) : Point :=
  (p.1, c * p.2.1 - s * p.2.2, s * p.2.1 + c * p.2.2)

/-- The per-view rotation of `create_stl` (lines 840-845), with
`math.radians` arguments replaced by the exact cosine/sine pairs of the
three angles used: `Side` rotates 90° about Y then 90° about X, `Front`
rotates −90° about X then 180° about Y, `Top` is untouched. -/
def viewRotation : View → Point → Point
  | .Top => fun p => p
  | .Side => fun p => rotX 0 1 (rotY 0 1 p)
  | .Front => fun p => rotY (-1) 0 (rotX 0 (-1) p)

/-- `grid_mesh.vectors` flattened to a point list (lines 832-835): for each
face, the three vertex positions it references, in order.  Out-of-range
indices (which `faces_reference_valid_vertices` rules out) fall back to the
origin. -/
def meshVectors (vs : List Point) (fs : List Face) : List Point :=
  fs.flatMap fun f =>
    [vs.getD f.1 ((0 : ℚ), (0 : ℚ), (0 : ℚ)),
     vs.getD f.2.1 ((0 : ℚ), (0 : ℚ), (0 : ℚ)),
     vs.getD f.2.2 ((0 : ℚ), (0 : ℚ), (0 : ℚ))]

/-- `np.mean(..., axis=0)`: the arithmetic mean of a point list. -/
def centroid (ps : List Point) : Point := ((ps.length : ℚ))⁻¹ • ps.sum

/-- The final per-view point list of `create_stl` (lines 837-854):
`original_center = np.mean(vectors)`, rotate per view, recompute the center,
and translate every point by `original_center - new_center`.  The code's
local variables are inlined. -/
def create_stl_oriented (view : View) (N : Nat) (cs bt pd : ℚ)
    (grid : Nat → Nat → Bool) : List Point :=
  ((meshVectors (create_stl N cs bt pd grid).1
      (create_stl N cs bt pd grid).2).map (viewRotation view)).map
    fun p => p +
      (centroid (meshVectors (create_stl N cs bt pd grid).1
          (create_stl N cs bt pd grid).2) -
        centroid ((meshVectors (create_stl N cs bt pd grid).1
            (create_stl N cs bt pd grid).2).map (viewRotation view)))

/-- Summing a uniformly translated point list. -/
lemma sum_map_add_const (l : List Point) (t : Point) :
    (l.map fun p => p + t).sum = l.sum + l.length • t := by
  induction l with
  | nil => simp
  | cons a l ih =>
    simp only [List.map_cons, List.sum_cons, ih, List.length_cons, succ_nsmul]
    abel

/-- The centroid of a uniformly translated nonempty point list shifts by the
translation. -/
lemma centroid_map_add_const (l : List Point) (t : Point) (h : l ≠ []) :
    centroid (l.map fun p => p + t) = centroid l + t := by
  have h0 : l.length ≠ 0 := fun hh => h (List.length_eq_zero.1 hh)
  have hn : (l.length : ℚ) ≠ 0 := Nat.cast_ne_zero.2 h0
  unfold centroid
  rw [List.length_map, sum_map_add_const, smul_add]
  congr 1
  rw [← Nat.cast_smul_eq_nsmul ℚ, smul_smul, inv_mul_cancel₀ hn, one_smul]

/-- C7: for each view, the centroid of the final mesh — after the
view-specific rotation and the translation by
`original_centroid - rotated_centroid` — equals the centroid computed before
rotation, exactly in the rational model, hence in particular within the
claimed `1e-6 × cellSize` tolerance in every coordinate. -/
theorem centroid_invariance (view : View) (N : Nat) (cs bt pd : ℚ)
    (grid : Nat → Nat → Bool) (hcs : 0 < cs)
    (h : meshVectors (create_stl N cs bt pd grid).1
        (create_stl N cs bt pd grid).2 ≠ []) :
    centroid (create_stl_oriented view N cs bt pd grid) =
      centroid (meshVectors (create_stl N cs bt pd grid).1
        (create_stl N cs bt pd grid).2) ∧
    |(centroid (create_stl_oriented view N cs bt pd grid)).1 -
        (centroid (meshVectors (create_stl N cs bt pd grid).1
          (create_stl N cs bt pd grid).2)).1| ≤ cs * (1 / 1000000) ∧
    |(centroid (create_stl_oriented view N cs bt pd grid)).2.1 -
        (centroid (meshVectors (create_stl N cs bt pd grid).1
          (create_stl N cs bt pd grid).2)).2.1| ≤ cs * (1 / 1000000) ∧
    |(centroid (create_stl_oriented view N cs bt pd grid)).2.2 -
        (centroid (meshVectors (create_stl N cs bt pd grid).1
          (create_stl N cs bt pd grid).2)).2.2| ≤ cs * (1 / 1000000) := by
  have hrot : (meshVectors (create_stl N cs bt pd grid).1
      (create_stl N cs bt pd grid).2).map (viewRotation view) ≠ [] := by
    simpa using h
  have htol : (0 : ℚ) ≤ cs * (1 / 1000000) := by
    apply mul_nonneg hcs.le
    norm_num
  have hmain : centroid (create_stl_oriented view N cs bt pd grid) =
      centroid (meshVectors (create_stl N cs bt pd grid).1
        (create_stl N cs bt pd grid).2) := by
    unfold create_stl_oriented
    rw [centroid_map_add_const _ _ hrot]
    abel
  refine ⟨hmain, ?_, ?_, ?_⟩ <;> rw [hmain, sub_self, abs_zero] <;> exact htol

/-- Closed instance of `centroid_invariance`: the Side view of a
single-cell grid with `cellSize = 1`, `borderThickness = 0`,
`pocketDepth = 1`. -/
theorem centroid_invariance_witness :
    (0 : ℚ) < 1 ∧
    meshVectors (create_stl 1 1 0 1 allFalseGrid).1
      (create_stl 1 1 0 1 allFalseGrid).2 ≠ [] ∧
    (centroid (create_stl_oriented .Side 1 1 0 1 allFalseGrid) =
      centroid (meshVectors (create_stl 1 1 0 1 allFalseGrid).1
        (create_stl 1 1 0 1 allFalseGrid).2) ∧
    |(centroid (create_stl_oriented .Side 1 1 0 1 allFalseGrid)).1 -
        (centroid (meshVectors (create_stl 1 1 0 1 allFalseGrid).1
          (create_stl 1 1 0 1 allFalseGrid).2)).1| ≤ 1 * (1 / 1000000) ∧
    |(centroid (create_stl_oriented .Side 1 1 0 1 allFalseGrid)).2.1 -
        (centroid (meshVectors (create_stl 1 1 0 1 allFalseGrid).1
          (create_stl 1 1 0 1 allFalseGrid).2)).2.1| ≤ 1 * (1 / 1000000) ∧
    |(centroid (create_stl_oriented .Side 1 1 0 1 allFalseGrid)).2.2 -
        (centroid (meshVectors (create_stl 1 1 0 1 allFalseGrid).1
          (create_stl 1 1 0 1 allFalseGrid).2)).2.2| ≤ 1 * (1 / 1000000)) :=
  ⟨by norm_num, by decide,
    centroid_invariance .Side 1 1 0 1 allFalseGrid (by norm_num) (by decide)⟩

/-- The spec's named rotation: +90° about Y, `(x,y,z) ↦ (z, y, -x)`. -/
def rotY90spec (p : Point) : Point := (p.2.2, p.2.1, -p.1)

/-- The spec's named rotation: +90° about X, `(x,y,z) ↦ (x, -z, y)`. -/
def rotX90spec (p : Point) : Point := (p.1, -p.2.2, p.2.1)

/-- The spec's named rotation: −90° about X, `(x,y,z) ↦ (x, z, -y)`. -/
def rotXneg90spec (p : Point) : Point := (p.1, p.2.2, -p.2.1)

/-- The spec's named rotation: 180° about Y, `(x,y,z) ↦ (-x, y, -z)`. -/
def rotY180spec (p : Point) : Point := (-p.1, p.2.1, -p.2.2)

/-- C8: the orientation transform applied per view is exactly the identity
for `Top`, the rotation by +90° about Y followed by +90° about X for `Side`,
and the rotation by −90° about X followed by 180° about Y for `Front`. -/
theorem view_rotation_exact (p : Point) :
    viewRotation .Top p = p ∧
    viewRotation .Side p = rotX90spec (rotY90spec p) ∧
    viewRotation .Front p = rotY180spec (rotXneg90spec p) := by
  refine ⟨rfl, ?_, ?_⟩
  · simp only [viewRotation, rotX, rotY, rotX90spec, rotY90spec, Prod.mk.injEq]
    refine ⟨by ring, by ring, by ring⟩
  · simp only [viewRotation, rotX, rotY, rotXneg90spec, rotY180spec,
      Prod.mk.injEq]
    refine ⟨by ring, by ring, by ring⟩

/-! ## Parameter validation (C2)

`PreferencesDialog.save_preferences` (lines 108-131) is the only place any
geometry parameter is checked, and `generate_grid` (lines 585-593) the only
place the grid size is checked; `create_stl` itself validates nothing before
its per-cell loop.
-/

/-- Whether `save_preferences` accepts (does not raise `ValueError` for) the
given numeric preferences: the code checks only
`cell_size <= 0 or border_thickness <= 0 or max_recent <= 0`.
`pocket_depth` is parsed but never range-checked.  (The separate
OpenSCAD-binary path check concerns an external collaborator and is not
modelled.) -/
def save_preferences_accepts (cell_size border_thickness : ℚ)
    (pocket_depth max_recent_files : ℤ) : Bool :=
  !(decide (cell_size ≤ 0) || decide (border_thickness ≤ 0) ||
    decide (max_recent_files ≤ 0))

/-- Whether `generate_grid` accepts the typed grid size:
`8 <= grid_size <= 64`. -/
def generate_grid_accepts (size : ℤ) : Bool :=
  decide (8 ≤ size) && decide (size ≤ 64)

set_option maxRecDepth 40000 in
/-- C2 fails on the code: with grid size 8, `cellSize = 3`,
`borderThickness = 2/5` and `pocketDepth = 12`, the pocket floor sits at
`z = 178/5 = 35.6` and the pocket ceiling at `z = -58/5`, violating
`0 < floor_z < ceiling_z < H` (`H = 24`); yet `save_preferences` accepts the
configuration (it never checks `pocket_depth` — it also accepts
`pocket_depth = 0` and `borderThickness ≥ cellSize/2`), and `create_stl`
performs no validation at all and builds the full 1472-face mesh with the
inverted pockets instead of rejecting it. -/
theorem validation_gap :
    save_preferences_accepts 3 (2/5) 12 5 = true ∧
    save_preferences_accepts 3 (2/5) 0 5 = true ∧
    save_preferences_accepts 3 2 5 5 = true ∧
    generate_grid_accepts 8 = true ∧
    ¬(0 < 3 * (12 : ℚ) - 2/5 ∧
      3 * (12 : ℚ) - 2/5 < 8 * 3 - 3 * 12 + 2/5 ∧
      8 * 3 - 3 * (12 : ℚ) + 2/5 < 8 * 3) ∧
    (create_stl 8 3 (2/5) 12 allFalseGrid).2.length = 1472 ∧
    ((cellVertices 8 3 (2/5) 12 1 1).getD 16 ((0 : ℚ), (0 : ℚ), (0 : ℚ))).2.2 =
      178/5 := by
  refine ⟨by norm_num [save_preferences_accepts],
    by norm_num [save_preferences_accepts],
    by norm_num [save_preferences_accepts],
    by norm_num [generate_grid_accepts], by norm_num, ?_,
    by simp [cellVertices]; norm_num⟩
  rw [create_stl_eq]
  decide

end ShadowCube
